import Mathlib

/-!
Verification of the GitHub repository and contributor scoring pipeline of
this repository (source: src/lib/github-api.ts).

Modelling conventions:

* JavaScript numbers are modelled as exact rationals (`ℚ`); every decimal
  literal appearing in the source (0.5, 0.3, 0.4, 0.2) is an exact rational.
* `Math.round` is modelled by `jsRound` (round half towards plus infinity,
  the JavaScript semantics: `Math.round x = ⌊x + 1/2⌋`).
* Every remote lookup performed by the source is an `Option`-valued input of
  the corresponding Lean function: `none` models the call failing (throwing),
  `some` models the data it returned.  A `try`/`catch` block of the source
  that degrades a failed sub-fetch to a default value is modelled by
  `Option.getD`; a `try`/`catch` that aborts the surrounding computation is
  modelled by matching on the `Option` and short-circuiting.
* Calendar timestamps are modelled at the two granularities the source uses
  them at: an absolute calendar-month index (`month : ℤ`, conceptually
  year * 12 + month; the monthly-trend bucketing of the source compares
  dates only against calendar month boundaries, so a date lies in the bucket
  starting at month `m` iff its month index equals `m`) and a day count
  (`days : ℚ`, used by the average-duration statistics which subtract
  timestamps and convert to days).
-/

/-- Rounding function of JavaScript `Math.round` (round half up). -/
def jsRound (q : ℚ) : ℤ := ⌊q + 1/2⌋

/-- A timestamp, carrying its calendar-month index and its day count.
Source dates (`new Date(...)`) are used either for month bucketing or for
day-difference averages; both views are carried explicitly. -/
structure Timestamp where
  month : ℤ
  days : ℚ
  deriving Repr, DecidableEq

/-- Repository metadata as returned by the data source for one repository
(fields read by isOpenSourceRepo from `repoResponse.data`). -/
structure RepoMeta where
  isPrivate : Bool
  forks_count : ℕ
  stargazers_count : ℕ
  hasLicense : Bool
  open_issues_count : ℕ
  size : ℕ
  deriving Repr, DecidableEq

/-- Model of isOpenSourceRepo (src/lib/github-api.ts lines 78-165).

`repoFetch` is the result of the `repos.get` call: `none` means the call
threw, which is caught by the outer catch of the source and yields `false`.
`contribFetch` and `commitsFetch` are the contributor-count and
recent-commit-count lookups; each has its own `try`/`catch` in the source
that degrades a failure to 0 (modelled by `Option.getD 0`). -/
def isOpenSourceRepo (repoFetch : Option RepoMeta)
    (contribFetch : Option ℕ) (commitsFetch : Option ℕ) : Bool :=
  match repoFetch with
  | none => false
  | some repoData =>
    if repoData.isPrivate then false
    else
      let numContributors : ℕ := contribFetch.getD 0
      let recentActivity : ℕ := commitsFetch.getD 0
      let score : ℚ :=
        min (repoData.forks_count : ℚ) 50 * 0.5
        + min (repoData.stargazers_count : ℚ) 100 * 0.3
        + min (numContributors : ℚ) 10 * 5
        + (if repoData.hasLicense then 20 else 0)
        + min (repoData.open_issues_count : ℚ) 50 * 0.4
        + min (recentActivity : ℚ) 100 * 0.2
        + min ((repoData.size : ℚ) / 1000) 10
      decide (score > 35)

/-- An issue record (fields read by fetchRepoData and generateMonthlyTrends).
`pull_request` models presence of the `pull_request` key that marks an
issue-shaped record as really being a pull request. -/
structure Issue where
  state : String
  pull_request : Bool
  created_at : Timestamp
  closed_at : Option Timestamp
  deriving Repr, DecidableEq

/-- A pull-request record (fields read by fetchRepoData and
generateMonthlyTrends). -/
structure PullReq where
  state : String
  created_at : Timestamp
  closed_at : Option Timestamp
  merged_at : Option Timestamp
  deriving Repr, DecidableEq

/-- A contributor record (fields read from `listContributors`). -/
structure Contributor where
  login : String
  contributions : ℕ
  deriving Repr, DecidableEq

/-- One entry of a monthly trend series as returned by
generateMonthlyTrends; `month` is the calendar-month index that the
formatted month label of the source denotes. -/
structure TrendOut where
  month : ℤ
  opened : ℕ
  closed : ℕ
  merged : ℕ
  deriving Repr, DecidableEq

/-- Working bucket of generateMonthlyTrends before final formatting. -/
structure MonthBucket where
  date : ℤ
  opened : ℕ
  closed : ℕ
  merged : ℕ
  deriving Repr, DecidableEq

/-- Containment test of the source bucketing
(`date >= monthData.date && date < nextMonth`), at month granularity. -/
def inBucket (d : ℤ) (t : ℤ) : Bool := decide (d ≤ t ∧ t < d + 1)

/-- A generic item fed to generateMonthlyTrends (issues have no merge
timestamp; reading `item.merged_at` on them yields `undefined`, i.e.
`none`). -/
structure TrendItem where
  created_at : ℤ
  closed_at : Option ℤ
  merged_at : Option ℤ
  deriving Repr, DecidableEq

/-- View of an issue as a trend item. -/
def Issue.toTrendItem (i : Issue) : TrendItem :=
  { created_at := i.created_at.month
    closed_at := i.closed_at.map (·.month)
    merged_at := none }

/-- View of a pull request as a trend item. -/
def PullReq.toTrendItem (p : PullReq) : TrendItem :=
  { created_at := p.created_at.month
    closed_at := p.closed_at.map (·.month)
    merged_at := p.merged_at.map (·.month) }

/-- Per-item increment of the `opened` counter of the bucket at `d`. -/
def openedInc (d : ℤ) (it : TrendItem) : ℕ :=
  if inBucket d it.created_at then 1 else 0

/-- Per-item increment of the `closed` counter of the bucket at `d`. -/
def closedInc (d : ℤ) (it : TrendItem) : ℕ :=
  match it.closed_at with
  | some c => if inBucket d c then 1 else 0
  | none => 0

/-- Per-item increment of the `merged` counter of the bucket at `d`
(guarded by `isPR`, exactly as the source guards the merged count). -/
def mergedInc (isPR : Bool) (d : ℤ) (it : TrendItem) : ℕ :=
  if isPR then
    match it.merged_at with
    | some m => if inBucket d m then 1 else 0
    | none => 0
  else 0

/-- Effect of one item on one bucket inside the counting loop of
generateMonthlyTrends: the three independent conditional increments of the
source, with the bucket date unchanged. -/
def bumpBucket (isPR : Bool) (it : TrendItem) (b : MonthBucket) : MonthBucket :=
  { b with
    opened := b.opened + openedInc b.date it
    closed := b.closed + closedInc b.date it
    merged := b.merged + mergedInc isPR b.date it }

/-- Initial six buckets of generateMonthlyTrends: the loop
`for (let i = 5; i >= 0; i--)` pushes the months today-5 … today. -/
def initMonths (today : ℤ) : List MonthBucket :=
  (List.range 6).map (fun j : ℕ =>
    { date := today - 5 + (j : ℤ), opened := 0, closed := 0, merged := 0 })

/-- Model of generateMonthlyTrends (src/lib/github-api.ts lines 525-582):
six trailing calendar-month buckets, a counting pass over all items, and a
final formatting pass that zeroes the merged counter for non-PR series. -/
def generateMonthlyTrends (items : List TrendItem) (isPR : Bool)
    (today : ℤ) : List TrendOut :=
  let months := items.foldl (fun ms it => ms.map (bumpBucket isPR it)) (initMonths today)
  months.map (fun b =>
    { month := b.date, opened := b.opened, closed := b.closed
      merged := if isPR then b.merged else 0 })

/-- Monthly-trend slice of the aggregated repository data
(the `issues` field of RepoData). -/
structure IssuesData where
  all : List Issue
  openList : List Issue
  closedList : List Issue
  monthlyTrends : List TrendOut
  avgResolutionTime : ℚ
  deriving Repr, DecidableEq

/-- Pull-request slice of the aggregated repository data
(the `pullRequests` field of RepoData). -/
structure PRsData where
  all : List PullReq
  openList : List PullReq
  closedList : List PullReq
  mergedList : List PullReq
  monthlyTrends : List TrendOut
  avgMergeTime : ℚ
  deriving Repr, DecidableEq

/-- Model of the RepoData record produced by fetchRepoData. -/
structure RepoData where
  repo : RepoMeta
  contributors : List Contributor
  issues : IssuesData
  pullRequests : PRsData
  deriving Repr, DecidableEq

/-- Raw fetch results consumed by fetchRepoData (any one of these calls
failing makes fetchRepoData rethrow, so the whole bundle is a single
`Option` at the caller). -/
structure RawRepo where
  repoMeta : RepoMeta
  contributors : List Contributor
  rawIssues : List Issue
  rawPRs : List PullReq
  deriving Repr, DecidableEq

/-- Model of fetchRepoData (src/lib/github-api.ts lines 428-523): filters
pull requests out of the issue list, partitions issues and PRs by state,
computes average resolution and merge times (0 on empty partitions) and the
two monthly trend series. -/
def fetchRepoDataPure (raw : RawRepo) (today : ℤ) : RepoData :=
  let issues := raw.rawIssues.filter (fun i => !i.pull_request)
  let openIssues := issues.filter (fun i => i.state == "open")
  let closedIssues := issues.filter (fun i => i.state == "closed")
  let resolutionTimes := closedIssues.map (fun i =>
    (i.closed_at.getD ⟨0, 0⟩).days - i.created_at.days)
  let avgResolutionTime : ℚ :=
    if resolutionTimes.length > 0 then
      resolutionTimes.sum / (resolutionTimes.length : ℚ)
    else 0
  let openPRs := raw.rawPRs.filter (fun p => p.state == "open")
  let closedPRs := raw.rawPRs.filter (fun p => p.state == "closed" && p.merged_at.isNone)
  let mergedPRs := raw.rawPRs.filter (fun p => p.merged_at.isSome)
  let mergeTimes := mergedPRs.map (fun p =>
    (p.merged_at.getD ⟨0, 0⟩).days - p.created_at.days)
  let avgMergeTime : ℚ :=
    if mergeTimes.length > 0 then
      mergeTimes.sum / (mergeTimes.length : ℚ)
    else 0
  { repo := raw.repoMeta
    contributors := raw.contributors
    issues :=
      { all := issues
        openList := openIssues
        closedList := closedIssues
        monthlyTrends := generateMonthlyTrends (issues.map Issue.toTrendItem) false today
        avgResolutionTime := avgResolutionTime }
    pullRequests :=
      { all := raw.rawPRs
        openList := openPRs
        closedList := closedPRs
        mergedList := mergedPRs
        monthlyTrends := generateMonthlyTrends (raw.rawPRs.map PullReq.toTrendItem) true today
        avgMergeTime := avgMergeTime } }

/-- Model of calculateRepoHealthScore (src/lib/github-api.ts lines
168-201): issue-resolution ratio (40 pts, 30 by default when there are no
issues), issue-resolution time (30 pts) and PR merge ratio (30 pts), summed
and rounded. -/
def calculateRepoHealthScore (data : RepoData) : ℤ :=
  let totalIssues := data.issues.openList.length + data.issues.closedList.length
  let s1 : ℚ :=
    if totalIssues > 0 then
      ((data.issues.closedList.length : ℚ) / (totalIssues : ℚ)) * 40
    else 30
  let s2 : ℚ :=
    if data.issues.avgResolutionTime > 0 then
      max 0 (30 - min data.issues.avgResolutionTime 30) / 30 * 30
    else 0
  let s3 : ℚ :=
    if data.pullRequests.all.length > 0 then
      ((data.pullRequests.mergedList.length : ℚ) / (data.pullRequests.all.length : ℚ)) * 30
    else 0
  jsRound (s1 + s2 + s3)

/-- User profile fields read from `users.getByUsername`. -/
structure UserDetails where
  login : String
  avatar_url : String
  html_url : String
  name : Option String
  bio : Option String
  deriving Repr, DecidableEq

/-- Permission record of a collaborator (`permissions` may be absent). -/
structure Perms where
  push : Bool
  deriving Repr, DecidableEq

/-- A collaborator record from `listCollaborators`. -/
structure Collaborator where
  login : String
  permissions : Option Perms
  deriving Repr, DecidableEq

/-- A commit record: the author (or committer) date if present, as a day
count (the source reads `commit.commit?.author?.date ||
commit.commit?.committer?.date` and treats a missing date as not recent). -/
structure Commit where
  date : Option ℚ
  deriving Repr, DecidableEq

/-- All the data-source responses consumed by one run of
calculateContributorScore, one field per remote lookup of the source
(`none` models that lookup throwing).  `prSearch` models the single
`try` block issuing the two PR search queries: `none` means the first
query threw (both counts stay 0); `some (t, none)` means the first
returned `t` and the second threw (merged count stays 0). -/
structure ScoreWorld where
  eligRepo : Option RepoMeta
  eligContrib : Option ℕ
  eligCommits : Option ℕ
  repoFetch : Option RawRepo
  userFetch : Option UserDetails
  collabFetch : Option (List Collaborator)
  commitsFetch : Option (List Commit)
  prSearch : Option (ℕ × Option ℕ)
  issueSearch : Option ℕ
  threeMonthsAgo : ℚ
  today : ℤ
  deriving Repr, DecidableEq

/-- The contributionStats record of ContributorScoreData. -/
structure ContributionStats where
  totalCommits : ℕ
  totalPRs : ℕ
  mergedPRs : ℕ
  issuesCreated : ℕ
  issuesClosed : ℕ
  isOwner : Bool
  isMaintainer : Bool
  commitsRank : ℕ
  contributorCount : ℕ
  recentActivity : ℚ
  deriving Repr, DecidableEq

/-- The ContributorScoreData result record (src/lib/github-api.ts lines
37-63).  The score fields are integers by construction in the source
(results of `Math.round`), hence typed `ℤ` here. -/
structure ContributorScoreData where
  username : String
  repositoryName : String
  isOpenSource : Bool
  contributorScore : ℤ
  totalScore : ℤ
  userDetails : UserDetails
  contributionStats : ContributionStats
  repoHealthScore : ℤ
  deriving Repr, DecidableEq

/-- Rank part of the contributor score before the any-commits fallback
(src/lib/github-api.ts lines 367-372): only added when the repository has
contributors; the top rank gets 40, other ranks scale down linearly. -/
def rankScore (contributorCount commitsRank : ℕ) : ℚ :=
  if contributorCount > 0 then
    if commitsRank = 1 then 40
    else max 0 (40 - ((commitsRank : ℚ) - 1) * (40 / min (contributorCount : ℚ) 10))
  else 0

/-- Rank part of the contributor score including the fallback of lines
374-377: when the user has commits but the accumulated score is still 0
(the accumulated score at that point is exactly the rank score), add
`min(10, totalCommits)`. -/
def rankComponent (contributorCount commitsRank totalCommits : ℕ) : ℚ :=
  if totalCommits > 0 ∧ rankScore contributorCount commitsRank = 0 then
    rankScore contributorCount commitsRank + min 10 (totalCommits : ℚ)
  else rankScore contributorCount commitsRank

/-- Raw (pre-clamp) contributor score: the sum of the five components of
src/lib/github-api.ts lines 364-396, as a function of the compiled
contribution stats. -/
def contributorRawScore (stats : ContributionStats) : ℚ :=
  rankComponent stats.contributorCount stats.commitsRank stats.totalCommits
  + (if stats.totalPRs > 0 then
      min 20 ((stats.mergedPRs : ℚ) * 2) * ((stats.mergedPRs : ℚ) / (stats.totalPRs : ℚ))
    else 0)
  + (if stats.isOwner then 20 else if stats.isMaintainer then 15 else 0)
  + (stats.recentActivity / 100) * 20
  + min 10 (stats.issuesCreated : ℚ)

/-- Clamping of line 399: `Math.max(0, Math.min(100, Math.round(score)))`. -/
def clampScore (q : ℚ) : ℤ := max 0 (min 100 (jsRound q))

/-- JavaScript `x || undefined` on an optional string (an empty string is
falsy and becomes `undefined`). -/
def orUndefined (s : Option String) : Option String :=
  match s with
  | some v => if v == "" then none else some v
  | none => none

/-- The short-circuited all-zero result returned for an ineligible
repository (src/lib/github-api.ts lines 212-238). -/
def ineligibleResult (username owner repo : String) : ContributorScoreData :=
  { username := username
    repositoryName := owner ++ "/" ++ repo
    isOpenSource := false
    contributorScore := 0
    totalScore := 0
    userDetails :=
      { login := username, avatar_url := "",
        html_url := "https://github.com/" ++ username, name := none, bio := none }
    contributionStats :=
      { totalCommits := 0, totalPRs := 0, mergedPRs := 0, issuesCreated := 0,
        issuesClosed := 0, isOwner := false, isMaintainer := false,
        commitsRank := 0, contributorCount := 0, recentActivity := 0 }
    repoHealthScore := 0 }

/-- The eligible-path result of calculateContributorScore
(src/lib/github-api.ts lines 240-421), given that fetchRepoData and the
user-profile lookup both succeeded. -/
def mainResult (username owner repo : String) (w : ScoreWorld)
    (raw : RawRepo) (user : UserDetails) : ContributorScoreData :=
  let repoData := fetchRepoDataPure raw w.today
  let repoHealthScore := calculateRepoHealthScore repoData
  let isOwner := owner.toLower == username.toLower
  let isMaintainer :=
    match w.collabFetch with
    | none => false
    | some collabs =>
      match collabs.find? (fun c => c.login.toLower == username.toLower) with
      | some c =>
        match c.permissions with
        | some p => p.push
        | none => false
      | none => false
  let userCommits := w.commitsFetch.getD []
  let contributorCount := repoData.contributors.length
  let sortedContributors :=
    repoData.contributors.mergeSort (fun a b => b.contributions ≤ a.contributions)
  let commitsRank : ℕ :=
    match sortedContributors.findIdx? (fun c => c.login.toLower == username.toLower) with
    | some i => i + 1
    | none => if userCommits.length > 0 then contributorCount + 1 else 0
  let prCounts : ℕ × ℕ :=
    match w.prSearch with
    | none => (0, 0)
    | some (t, m) => (t, m.getD 0)
  let issuesCreated := w.issueSearch.getD 0
  let recentCommits :=
    (userCommits.filter (fun c =>
      match c.date with
      | some d => decide (d > w.threeMonthsAgo)
      | none => false)).length
  let recentActivity : ℚ :=
    if userCommits.length > 0 then
      ((recentCommits : ℚ) / (userCommits.length : ℚ)) * 100
    else 0
  let stats : ContributionStats :=
    { totalCommits := userCommits.length
      totalPRs := prCounts.1
      mergedPRs := prCounts.2
      issuesCreated := issuesCreated
      issuesClosed := 0
      isOwner := isOwner
      isMaintainer := isMaintainer
      commitsRank := commitsRank
      contributorCount := contributorCount
      recentActivity := recentActivity }
  let contributorScore : ℤ := clampScore (contributorRawScore stats)
  let totalScore : ℤ :=
    jsRound (((repoHealthScore : ℚ) * (contributorScore : ℚ)) / 100)
  { username := username
    repositoryName := owner ++ "/" ++ repo
    isOpenSource := true
    contributorScore := contributorScore
    totalScore := totalScore
    userDetails :=
      { login := user.login, avatar_url := user.avatar_url,
        html_url := user.html_url,
        name := orUndefined user.name, bio := orUndefined user.bio }
    contributionStats := stats
    repoHealthScore := repoHealthScore }

/-- Model of calculateContributorScore (src/lib/github-api.ts lines
204-426): eligibility short-circuit, then the main scoring path; a failure
of fetchRepoData or of the user-profile lookup reaches the outer catch and
yields the null sentinel. -/
def calculateContributorScore (username owner repo : String)
    (w : ScoreWorld) : Option ContributorScoreData :=
  let openSource := isOpenSourceRepo w.eligRepo w.eligContrib w.eligCommits
  if openSource = false then
    some (ineligibleResult username owner repo)
  else
    match w.repoFetch, w.userFetch with
    | some raw, some user => some (mainResult username owner repo w raw user)
    | _, _ => none

/-- One repository entry of the OpenSourceValueData result. -/
structure RepoSummary where
  name : String
  fullName : String
  contributorScore : ℤ
  isOpenSource : Bool
  url : String
  deriving Repr, DecidableEq

/-- The OpenSourceValueData result record (src/lib/github-api.ts lines
65-75). -/
structure OpenSourceValueData where
  username : String
  totalScore : ℤ
  repositories : List RepoSummary
  deriving Repr, DecidableEq

/-- One repository of the user's repository list, together with the
data-source responses its scoring run will consume.  `parentFetch` models
the `repos.get` call done for forks: `none` means it threw (the fork keeps
its own identity), `some none` means no `parent` field, `some (some (o,
n))` gives the parent's owner login and name. -/
structure UserRepo where
  isPrivate : Bool
  fork : Bool
  ownerLogin : String
  name : String
  parentFetch : Option (Option (String × String))
  world : ScoreWorld
  deriving Repr, DecidableEq

/-- Fork-to-upstream resolution of src/lib/github-api.ts lines 618-639. -/
def resolveRepo (r : UserRepo) : String × String :=
  if r.fork then
    match r.parentFetch with
    | some (some p) => p
    | _ => (r.ownerLogin, r.name)
  else (r.ownerLogin, r.name)

/-- Per-repository processing of the aggregator (src/lib/github-api.ts
lines 608-665): skip private repositories, resolve forks, score, and build
the summary entry for a non-null score. -/
def scoreRepo (username : String) (r : UserRepo) : Option RepoSummary :=
  if r.isPrivate then none
  else
    let resolved := resolveRepo r
    match calculateContributorScore username resolved.1 resolved.2 r.world with
    | some d =>
      some
        { name := resolved.2
          fullName := resolved.1 ++ "/" ++ resolved.2
          contributorScore := d.contributorScore
          isOpenSource := d.isOpenSource
          url := "https://github.com/" ++ resolved.1 ++ "/" ++ resolved.2 }
    | none => none

/-- Model of calculateOpenSourceValue (src/lib/github-api.ts lines
585-690): `reposFetch` is the user's repository listing (`none` models the
listing call throwing, handled by the outer catch).  Each successfully
scored repository contributes a summary entry; the total accumulates the
contributor scores of entries flagged open source; the final list is
sorted by contributor score descending. -/
def calculateOpenSourceValue (username : String)
    (reposFetch : Option (List UserRepo)) : OpenSourceValueData :=
  match reposFetch with
  | none => { username := username, totalScore := 0, repositories := [] }
  | some repos =>
    let summaries := repos.filterMap (scoreRepo username)
    let totalScore :=
      (summaries.filter (fun s => s.isOpenSource)).foldl
        (fun acc s => acc + s.contributorScore) 0
    let sorted := summaries.mergeSort (fun a b => b.contributorScore ≤ a.contributorScore)
    { username := username, totalScore := totalScore, repositories := sorted }

example : jsRound 98 = 98 := by norm_num [jsRound]
example : isOpenSourceRepo none (some 99) (some 99) = false := rfl
example : isOpenSourceRepo
    (some { isPrivate := false, forks_count := 0, stargazers_count := 0,
            hasLicense := true, open_issues_count := 0, size := 0 })
    (some 4) none = true := by norm_num [isOpenSourceRepo]

/-- Lower bound of the rounding function. -/
theorem jsRound_nonneg {q : ℚ} (h : 0 ≤ q) : 0 ≤ jsRound q := by
  unfold jsRound
  rw [Int.le_floor]
  push_cast
  linarith

/-- Upper bound of the rounding function. -/
theorem jsRound_le_100 {q : ℚ} (h : q ≤ 100) : jsRound q ≤ 100 := by
  unfold jsRound
  have : (⌊q + 1/2⌋ : ℤ) < 101 := by
    rw [Int.floor_lt]
    push_cast
    linarith
  omega

/-- The clamp of the contributor score stays inside the advertised range. -/
theorem clampScore_bounds (q : ℚ) : 0 ≤ clampScore q ∧ clampScore q ≤ 100 := by
  unfold clampScore
  constructor
  · exact le_max_left 0 _
  · exact max_le (by norm_num) (min_le_left _ _)

/-- A world every lookup of which fails. -/
def failWorld : ScoreWorld :=
  { eligRepo := none, eligContrib := none, eligCommits := none,
    repoFetch := none, userFetch := none, collabFetch := none,
    commitsFetch := none, prSearch := none, issueSearch := none,
    threeMonthsAgo := 0, today := 0 }

/-- Inversion principle for calculateContributorScore: a non-null result is
either the ineligible zero record or the main-path record built from
successful repository-data and user fetches. -/
theorem calculateContributorScore_cases (u o r : String) (w : ScoreWorld)
    (d : ContributorScoreData) (h : calculateContributorScore u o r w = some d) :
    d = ineligibleResult u o r ∨
      ∃ raw user, w.repoFetch = some raw ∧ w.userFetch = some user ∧
        d = mainResult u o r w raw user := by
  unfold calculateContributorScore at h
  cases hos : isOpenSourceRepo w.eligRepo w.eligContrib w.eligCommits with
  | false =>
    rw [hos] at h
    simp at h
    exact Or.inl h.symm
  | true =>
    rw [hos] at h
    simp only [Bool.true_eq_false, if_false] at h
    cases hrf : w.repoFetch with
    | none => rw [hrf] at h; simp at h
    | some raw =>
      cases huf : w.userFetch with
      | none => rw [hrf, huf] at h; simp at h
      | some user =>
        rw [hrf, huf] at h
        simp at h
        exact Or.inr ⟨raw, user, rfl, rfl, h.symm⟩

/-- C1: for every (username, owner, repo) input classified ineligible,
calculateContributorScore returns a non-null result whose contributorScore,
repoHealthScore and totalScore are all 0, whatever all the other fetched
statistics are. -/
theorem ineligible_yields_zero_result (u o r : String) (w : ScoreWorld)
    (h : isOpenSourceRepo w.eligRepo w.eligContrib w.eligCommits = false) :
    ∃ d, calculateContributorScore u o r w = some d ∧
      d.contributorScore = 0 ∧ d.repoHealthScore = 0 ∧ d.totalScore = 0 := by
  refine ⟨ineligibleResult u o r, ?_, rfl, rfl, rfl⟩
  simp [calculateContributorScore, h]

/-- Witness for C1 at a concrete input (metadata lookup failed, hence
classified ineligible). -/
theorem ineligible_yields_zero_result_witness :
    ∃ d, calculateContributorScore "alice" "octo" "proj" failWorld = some d ∧
      d.contributorScore = 0 ∧ d.repoHealthScore = 0 ∧ d.totalScore = 0 :=
  ineligible_yields_zero_result "alice" "octo" "proj" failWorld rfl

/-- C8: when listing the user's repositories fails, calculateOpenSourceValue
returns the well-formed zero-value result and (being a total function of its
inputs) lets no exception escape. -/
theorem openSourceValue_listing_failure (username : String) :
    calculateOpenSourceValue username none =
      { username := username, totalScore := 0, repositories := [] } := rfl

/-- C3: the eligibility classifier rejects every private repository and
accepts a public repository exactly when the weighted factor score (with a
failed contributor or recent-commit sub-fetch contributing 0) exceeds 35. -/
theorem eligibility_classifier_formula (m : RepoMeta) (cf rf : Option ℕ) :
    isOpenSourceRepo (some m) cf rf =
      (!m.isPrivate &&
        decide (min (m.forks_count : ℚ) 50 * 0.5
          + min (m.stargazers_count : ℚ) 100 * 0.3
          + min ((cf.getD 0 : ℕ) : ℚ) 10 * 5
          + (if m.hasLicense then 20 else 0)
          + min (m.open_issues_count : ℚ) 50 * 0.4
          + min ((rf.getD 0 : ℕ) : ℚ) 100 * 0.2
          + min ((m.size : ℚ) / 1000) 10 > 35)) := by
  cases hp : m.isPrivate <;> simp [isOpenSourceRepo, hp]

/-- C10: the issuesClosed statistic of every non-null result is 0 — the
field exists in the interface but is never computed from any input. -/
theorem issuesClosed_never_computed (u o r : String) (w : ScoreWorld)
    (d : ContributorScoreData)
    (h : calculateContributorScore u o r w = some d) :
    d.contributionStats.issuesClosed = 0 := by
  rcases calculateContributorScore_cases u o r w d h with h' | ⟨raw, user, _, _, h'⟩
  · rw [h']
    rfl
  · rw [h']
    rfl

/-- Witness for C10 at a concrete input. -/
theorem issuesClosed_never_computed_witness :
    (ineligibleResult "bob" "oo" "rr").contributionStats.issuesClosed = 0 :=
  issuesClosed_never_computed "bob" "oo" "rr" failWorld
    (ineligibleResult "bob" "oo" "rr") rfl

/-- Helper: the resolution-time component as computed by the source equals
the form the specification writes, for every average. -/
theorem timeComponent_eq (avg : ℚ) :
    (if avg > 0 then max 0 (30 - min avg 30) / 30 * 30 else 0) =
      (if avg > 0 then (1 - min avg 30 / 30) * 30 else 0) := by
  split
  · have h2 : (0:ℚ) ≤ 30 - min avg 30 := by
      have := min_le_right avg (30 : ℚ)
      linarith
    rw [max_eq_right h2]
    ring
  · rfl

/-- An issue of the C4 scenario. -/
def scenarioIssue : Issue :=
  { state := "closed", pull_request := false, created_at := ⟨0, 0⟩,
    closed_at := some ⟨0, 2⟩ }

/-- A merged pull request of the C4 scenario. -/
def scenarioPR : PullReq :=
  { state := "closed", created_at := ⟨0, 0⟩, closed_at := some ⟨0, 1⟩,
    merged_at := some ⟨0, 1⟩ }

/-- The C4 scenario data: 200 closed issues, 0 open issues, average
resolution time 2 days, 50 merged of 50 total pull requests. -/
def scenarioData : RepoData :=
  { repo := { isPrivate := false, forks_count := 10, stargazers_count := 50,
              hasLicense := true, open_issues_count := 0, size := 1000 }
    contributors := []
    issues :=
      { all := List.replicate 200 scenarioIssue
        openList := []
        closedList := List.replicate 200 scenarioIssue
        monthlyTrends := []
        avgResolutionTime := 2 }
    pullRequests :=
      { all := List.replicate 50 scenarioPR
        openList := []
        closedList := []
        mergedList := List.replicate 50 scenarioPR
        monthlyTrends := []
        avgMergeTime := 1 } }

set_option maxRecDepth 8000

/-- C4: the repository health score is the rounded sum of the resolution
ratio component (30 by default with no issues at all), the resolution-time
component and the merge-ratio component, in the exact form the spec gives;
and the concrete scenario (200 closed issues, 0 open, average resolution
2 days, 50 of 50 PRs merged) scores 98. -/
theorem healthScore_formula_and_scenario :
    (∀ d : RepoData,
      calculateRepoHealthScore d = jsRound (
        (if d.issues.openList.length + d.issues.closedList.length > 0 then
          ((d.issues.closedList.length : ℚ) /
            ((d.issues.openList.length + d.issues.closedList.length : ℕ) : ℚ)) * 40
        else 30)
        + (if d.issues.avgResolutionTime > 0 then
            (1 - min d.issues.avgResolutionTime 30 / 30) * 30
          else 0)
        + (if d.pullRequests.all.length > 0 then
            ((d.pullRequests.mergedList.length : ℚ) /
              (d.pullRequests.all.length : ℚ)) * 30
          else 0))) ∧
    calculateRepoHealthScore scenarioData = 98 := by
  constructor
  · intro d
    simp only [calculateRepoHealthScore]
    rw [timeComponent_eq]
  · have h1 : scenarioData.issues.openList.length = 0 := rfl
    have h2 : scenarioData.issues.closedList.length = 200 := by
      simp [scenarioData]
    have h3 : scenarioData.pullRequests.all.length = 50 := by
      simp [scenarioData]
    have h4 : scenarioData.pullRequests.mergedList.length = 50 := by
      simp [scenarioData]
    have h5 : scenarioData.issues.avgResolutionTime = 2 := rfl
    simp only [calculateRepoHealthScore, h1, h2, h3, h4, h5]
    norm_num [jsRound]

/-- C5 counterexample: the rank component exceeds 40 when the user is
neither in the contributor list nor has any commit (rank 0 of 10
contributors scores 44), and the any-commits fallback also fires when
contributorCount is 10 (not 0) but the rank formula floors at 0 (rank 11 of
10 with 5 commits scores min(10,5)=5 instead of 0). -/
theorem rank_component_counterexample :
    rankComponent 10 0 0 = 44 ∧ rankComponent 10 11 5 = 5 := by
  constructor <;> norm_num [rankComponent, rankScore]

/-- Helper: the pre-fallback rank score never exceeds 40 once the rank is
at least 1. -/
theorem rankScore_le_40 {cc rank : ℕ} (h : 1 ≤ rank) : rankScore cc rank ≤ 40 := by
  unfold rankScore
  split
  · split
    · exact le_refl _
    · refine max_le (by norm_num) ?_
      rename_i hcc _
      have h1 : (0:ℚ) ≤ (rank : ℚ) - 1 := by
        have : (1:ℚ) ≤ (rank : ℚ) := by exact_mod_cast h
        linarith
      have hmin : (0:ℚ) < min (cc : ℚ) 10 :=
        lt_min (by exact_mod_cast hcc) (by norm_num)
      have h2 : (0:ℚ) ≤ 40 / min (cc : ℚ) 10 :=
        le_of_lt (div_pos (by norm_num) hmin)
      have := mul_nonneg h1 h2
      linarith
  · norm_num

/-- C5 (amended): the rank component equals 40 for rank 1 when there are
contributors; equals the max(0, 40 - (rank-1)*40/min(cc,10)) formula for
other ranks; stays at most 40 whenever the rank is at least 1; equals the
fallback min(10, commitCount) exactly when the user has at least one commit
and the pre-fallback rank score is 0 (which also happens for contributor
counts above 0 when the formula floors at 0); and for rank 0 with
contributors present it equals 40 + 40/min(cc,10), exceeding 40. -/
theorem rank_component_amended (cc rank tc : ℕ) :
    (1 ≤ rank → rankComponent cc rank tc ≤ 40) ∧
    (rank = 1 → 0 < cc → rankComponent cc rank tc = 40) ∧
    (cc = 0 → 0 < tc → rankComponent cc rank tc = min 10 (tc : ℚ)) ∧
    (rankComponent cc rank tc =
      if 0 < tc ∧ rankScore cc rank = 0 then min 10 (tc : ℚ)
      else rankScore cc rank) ∧
    (rank = 0 → 0 < cc →
      rankComponent cc rank tc = 40 + 40 / min (cc : ℚ) 10) := by
  refine ⟨?_, ?_, ?_, ?_, ?_⟩
  · intro h
    unfold rankComponent
    split
    · rename_i hc
      rw [hc.2, zero_add]
      have : min (10:ℚ) (tc : ℚ) ≤ 10 := min_le_left _ _
      linarith
    · exact rankScore_le_40 h
  · intro h1 h2
    have hs : rankScore cc rank = 40 := by
      unfold rankScore
      rw [if_pos h2, if_pos h1]
    unfold rankComponent
    rw [hs]
    rw [if_neg]
    intro hc
    exact absurd hc.2 (by norm_num)
  · intro h1 h2
    have hs : rankScore cc rank = 0 := by
      unfold rankScore
      rw [if_neg]
      omega
    unfold rankComponent
    rw [hs, if_pos ⟨h2, rfl⟩, zero_add]
  · by_cases hc : 0 < tc ∧ rankScore cc rank = 0
    · unfold rankComponent
      rw [if_pos hc, if_pos hc, hc.2, zero_add]
    · unfold rankComponent
      rw [if_neg hc, if_neg hc]
  · intro h0 hcc
    subst h0
    have hmin : (0:ℚ) < min (cc : ℚ) 10 :=
      lt_min (by exact_mod_cast hcc) (by norm_num)
    have hdiv : (0:ℚ) < 40 / min (cc : ℚ) 10 := div_pos (by norm_num) hmin
    have hs : rankScore cc 0 = 40 + 40 / min (cc : ℚ) 10 := by
      unfold rankScore
      rw [if_pos hcc, if_neg (by omega)]
      rw [max_eq_right (by push_cast; linarith)]
      push_cast
      ring
    unfold rankComponent
    rw [hs, if_neg]
    intro hc
    have := hc.2
    linarith

/-- Witness for C5's amended theorem at concrete ranks. -/
theorem rank_component_amended_witness :
    rankComponent 5 2 7 ≤ 40 ∧ rankComponent 0 9 3 = min 10 ((3:ℕ) : ℚ) :=
  ⟨(rank_component_amended 5 2 7).1 (by decide),
   (rank_component_amended 0 9 3).2.2.1 rfl (by decide)⟩

/-- A world where only the eligibility metadata lookup fails; every other
lookup succeeds. -/
def noMetaWorld : ScoreWorld :=
  { eligRepo := none, eligContrib := some 3, eligCommits := some 3,
    repoFetch := some
      { repoMeta := { isPrivate := false, forks_count := 1, stargazers_count := 1,
                      hasLicense := true, open_issues_count := 0, size := 10 },
        contributors := [], rawIssues := [], rawPRs := [] },
    userFetch := some
      { login := "carol", avatar_url := "", html_url := "", name := none, bio := none },
    collabFetch := some [], commitsFetch := some [], prSearch := some (0, some 0),
    issueSearch := some 0, threeMonthsAgo := 0, today := 0 }

/-- C6 counterexample: when fetching the repository's core metadata fails
during the eligibility check, calculateContributorScore does NOT return the
null sentinel; it returns the ineligible all-zero result, conflating
lookup failure with ineligibility. -/
theorem metadata_failure_yields_zero_not_null :
    noMetaWorld.eligRepo = none ∧
    calculateContributorScore "carol" "o6" "r6" noMetaWorld =
      some (ineligibleResult "carol" "o6" "r6") := ⟨rfl, rfl⟩

/-- C6 (amended): calculateContributorScore returns the null sentinel (it
never throws, being a total function) exactly when the repository is
classified eligible and then the repository-data fetch or the user-profile
fetch fails; a metadata failure inside the eligibility check instead yields
the ineligible all-zero result, so the two outcomes stay distinct. -/
theorem null_iff_eligible_lookup_failure (u o r : String) (w : ScoreWorld) :
    calculateContributorScore u o r w = none ↔
      isOpenSourceRepo w.eligRepo w.eligContrib w.eligCommits = true ∧
        (w.repoFetch = none ∨ w.userFetch = none) := by
  unfold calculateContributorScore
  cases hos : isOpenSourceRepo w.eligRepo w.eligContrib w.eligCommits with
  | false => simp
  | true =>
    cases hrf : w.repoFetch with
    | none => simp
    | some raw =>
      cases huf : w.userFetch with
      | none => simp
      | some user => simp

/-- Bounds of the issue-resolution component of the health score. -/
theorem resolutionComponent_bounds (nO nC : ℕ) :
    (0:ℚ) ≤ (if nO + nC > 0 then ((nC : ℚ) / ((nO + nC : ℕ) : ℚ)) * 40 else 30) ∧
    (if nO + nC > 0 then ((nC : ℚ) / ((nO + nC : ℕ) : ℚ)) * 40 else 30) ≤ 40 := by
  split
  · rename_i h
    have hpos : (0:ℚ) < ((nO + nC : ℕ) : ℚ) := by exact_mod_cast h
    have hle : (nC : ℚ) ≤ ((nO + nC : ℕ) : ℚ) := by
      exact_mod_cast Nat.le_add_left nC nO
    have hr : (nC : ℚ) / ((nO + nC : ℕ) : ℚ) ≤ 1 := (div_le_one hpos).2 hle
    have hr0 : (0:ℚ) ≤ (nC : ℚ) / ((nO + nC : ℕ) : ℚ) :=
      div_nonneg (Nat.cast_nonneg nC) (le_of_lt hpos)
    constructor
    · nlinarith
    · nlinarith
  · norm_num

/-- Bounds of the resolution-time component of the health score. -/
theorem resolutionTimeComponent_bounds (avg : ℚ) :
    (0:ℚ) ≤ (if avg > 0 then max 0 (30 - min avg 30) / 30 * 30 else 0) ∧
    (if avg > 0 then max 0 (30 - min avg 30) / 30 * 30 else 0) ≤ 30 := by
  split
  · rename_i h
    have hmin : (0:ℚ) ≤ min avg 30 := le_min (le_of_lt h) (by norm_num)
    have hM0 : (0:ℚ) ≤ max 0 (30 - min avg 30) := le_max_left 0 _
    have hM : max 0 (30 - min avg 30) ≤ 30 := max_le (by norm_num) (by linarith)
    have he : max 0 (30 - min avg 30) / 30 * 30 = max 0 (30 - min avg 30) :=
      div_mul_cancel₀ _ (by norm_num)
    rw [he]
    exact ⟨hM0, hM⟩
  · norm_num

/-- Bounds of the merge-ratio component of the health score. -/
theorem mergeComponent_bounds (a b : ℕ) (hab : a ≤ b) :
    (0:ℚ) ≤ (if b > 0 then ((a : ℚ) / (b : ℚ)) * 30 else 0) ∧
    (if b > 0 then ((a : ℚ) / (b : ℚ)) * 30 else 0) ≤ 30 := by
  split
  · rename_i h
    have hpos : (0:ℚ) < (b : ℚ) := by exact_mod_cast h
    have hle : (a : ℚ) ≤ (b : ℚ) := by exact_mod_cast hab
    have hr : (a : ℚ) / (b : ℚ) ≤ 1 := (div_le_one hpos).2 hle
    have hr0 : (0:ℚ) ≤ (a : ℚ) / (b : ℚ) :=
      div_nonneg (Nat.cast_nonneg a) (le_of_lt hpos)
    constructor
    · nlinarith
    · nlinarith
  · norm_num

/-- The health score is an integer between 0 and 100 whenever the merged
partition is no larger than the full PR list (true of every data set built
by the aggregator, where merged is a filter of all). -/
theorem calculateRepoHealthScore_bounds (d : RepoData)
    (hm : d.pullRequests.mergedList.length ≤ d.pullRequests.all.length) :
    0 ≤ calculateRepoHealthScore d ∧ calculateRepoHealthScore d ≤ 100 := by
  have h1 := resolutionComponent_bounds d.issues.openList.length d.issues.closedList.length
  have h2 := resolutionTimeComponent_bounds d.issues.avgResolutionTime
  have h3 := mergeComponent_bounds d.pullRequests.mergedList.length
    d.pullRequests.all.length hm
  simp only [calculateRepoHealthScore]
  constructor
  · exact jsRound_nonneg (by linarith [h1.1, h2.1, h3.1])
  · exact jsRound_le_100 (by linarith [h1.2, h2.2, h3.2])

/-- C2: every non-null result carries integer contributorScore and
repoHealthScore in [0,100] (integrality holds by construction: both fields
are produced by the model of Math.round), and totalScore is exactly
round(repoHealthScore * contributorScore / 100). -/
theorem scores_bounded_and_total_formula (u o r : String) (w : ScoreWorld)
    (d : ContributorScoreData)
    (h : calculateContributorScore u o r w = some d) :
    0 ≤ d.contributorScore ∧ d.contributorScore ≤ 100 ∧
    0 ≤ d.repoHealthScore ∧ d.repoHealthScore ≤ 100 ∧
    d.totalScore =
      jsRound (((d.repoHealthScore : ℚ) * (d.contributorScore : ℚ)) / 100) := by
  rcases calculateContributorScore_cases u o r w d h with h' | ⟨raw, user, _, _, h'⟩
  · subst h'
    simp only [ineligibleResult]
    norm_num [jsRound]
  · subst h'
    have hcs : (mainResult u o r w raw user).contributorScore =
        clampScore (contributorRawScore ((mainResult u o r w raw user).contributionStats)) := rfl
    have hh : (mainResult u o r w raw user).repoHealthScore =
        calculateRepoHealthScore (fetchRepoDataPure raw w.today) := rfl
    have hcb := clampScore_bounds
      (contributorRawScore ((mainResult u o r w raw user).contributionStats))
    have hhb := calculateRepoHealthScore_bounds (fetchRepoDataPure raw w.today)
      (List.length_filter_le _ _)
    refine ⟨?_, ?_, ?_, ?_, rfl⟩
    · rw [hcs]; exact hcb.1
    · rw [hcs]; exact hcb.2
    · rw [hh]; exact hhb.1
    · rw [hh]; exact hhb.2

/-- Witness for C2 at a concrete input. -/
theorem scores_bounded_and_total_formula_witness :
    0 ≤ (ineligibleResult "eve" "o2" "r2").contributorScore ∧
    (ineligibleResult "eve" "o2" "r2").contributorScore ≤ 100 ∧
    0 ≤ (ineligibleResult "eve" "o2" "r2").repoHealthScore ∧
    (ineligibleResult "eve" "o2" "r2").repoHealthScore ≤ 100 ∧
    (ineligibleResult "eve" "o2" "r2").totalScore =
      jsRound ((((ineligibleResult "eve" "o2" "r2").repoHealthScore : ℚ) *
        ((ineligibleResult "eve" "o2" "r2").contributorScore : ℚ)) / 100) :=
  scores_bounded_and_total_formula "eve" "o2" "r2" failWorld
    (ineligibleResult "eve" "o2" "r2") rfl

/-- Folding addition of contributor scores equals the sum of the mapped
scores. -/
theorem foldl_add_contributorScore (l : List RepoSummary) (init : ℤ) :
    l.foldl (fun acc s => acc + s.contributorScore) init =
      init + (l.map (fun s => s.contributorScore)).sum := by
  induction l generalizing init with
  | nil => simp
  | cons x xs ih => simp [ih, add_assoc]

/-- The aggregate total is the sum of contributor scores over the
open-source-flagged summaries, before sorting. -/
theorem openSourceValue_totalScore_eq (username : String) (repos : List UserRepo) :
    (calculateOpenSourceValue username (some repos)).totalScore =
      (((repos.filterMap (scoreRepo username)).filter
        (fun s => s.isOpenSource)).map (fun s => s.contributorScore)).sum := by
  show ((repos.filterMap (scoreRepo username)).filter
      (fun s => s.isOpenSource)).foldl (fun acc s => acc + s.contributorScore) 0 = _
  rw [foldl_add_contributorScore]
  exact zero_add _

/-- The output repository list is the sorted summary list. -/
theorem openSourceValue_repositories_eq (username : String) (repos : List UserRepo) :
    (calculateOpenSourceValue username (some repos)).repositories =
      (repos.filterMap (scoreRepo username)).mergeSort
        (fun a b => b.contributorScore ≤ a.contributorScore) := rfl

/-- C7: the aggregate totalScore equals the sum of contributorScore over
exactly the listed entries flagged open source (ineligible entries
contribute nothing), the total is invariant under any permutation of the
input repository order, and the output list is sorted by contributorScore
descending. -/
theorem openSourceValue_total_perm_sorted (username : String) (repos : List UserRepo) :
    ((calculateOpenSourceValue username (some repos)).totalScore =
      (((calculateOpenSourceValue username (some repos)).repositories.filter
          (fun s => s.isOpenSource)).map (fun s => s.contributorScore)).sum) ∧
    (∀ repos' : List UserRepo, List.Perm repos repos' →
      (calculateOpenSourceValue username (some repos')).totalScore =
        (calculateOpenSourceValue username (some repos)).totalScore) ∧
    (calculateOpenSourceValue username (some repos)).repositories.Pairwise
      (fun a b => b.contributorScore ≤ a.contributorScore) := by
  refine ⟨?_, ?_, ?_⟩
  · rw [openSourceValue_totalScore_eq, openSourceValue_repositories_eq]
    have hp : List.Perm
        ((repos.filterMap (scoreRepo username)).mergeSort
          (fun a b => b.contributorScore ≤ a.contributorScore))
        (repos.filterMap (scoreRepo username)) :=
      List.mergeSort_perm _ _
    exact (((hp.filter _).map _).sum_eq).symm
  · intro repos' hperm
    rw [openSourceValue_totalScore_eq, openSourceValue_totalScore_eq]
    exact (((hperm.filterMap (scoreRepo username)).symm.filter _).map _).sum_eq
  · rw [openSourceValue_repositories_eq]
    refine List.Pairwise.imp ?_
      (List.sorted_mergeSort ?_ ?_ (repos.filterMap (scoreRepo username)))
    · intro a b hab
      exact of_decide_eq_true hab
    · intro a b c hab hbc
      simp only [decide_eq_true_eq] at hab hbc ⊢
      exact le_trans hbc hab
    · intro a b
      simp only [Bool.or_eq_true, decide_eq_true_eq]
      exact le_total _ _

/-- A private repository entry used by the C7 witness. -/
def repoA : UserRepo :=
  { isPrivate := true, fork := false, ownerLogin := "x", name := "a",
    parentFetch := none, world := failWorld }

/-- A second private repository entry used by the C7 witness. -/
def repoB : UserRepo :=
  { isPrivate := true, fork := false, ownerLogin := "x", name := "b",
    parentFetch := none, world := failWorld }

/-- Witness for C7: permutation invariance of the total at a concrete
two-repository input. -/
theorem openSourceValue_total_perm_sorted_witness :
    (calculateOpenSourceValue "dan" (some [repoB, repoA])).totalScore =
      (calculateOpenSourceValue "dan" (some [repoA, repoB])).totalScore :=
  (openSourceValue_total_perm_sorted "dan" [repoA, repoB]).2.1 [repoB, repoA]
    (List.Perm.swap repoB repoA [])

/-- Summing an indicator over a list counts the items passing the test. -/
theorem sum_map_ite_count (p : TrendItem → Bool) (items : List TrendItem) :
    (items.map (fun it => if p it then 1 else 0)).sum = (items.filter p).length := by
  induction items with
  | nil => rfl
  | cons x xs ih =>
    by_cases h : p x <;> simp [h, ih, List.filter_cons]
    omega

/-- The closed-counter increment is the indicator of the closing timestamp
falling in the bucket. -/
theorem closedInc_eq (d : ℤ) (it : TrendItem) :
    closedInc d it =
      if (match it.closed_at with
        | some c => inBucket d c
        | none => false) then 1 else 0 := by
  cases h : it.closed_at <;> simp [closedInc, h]

/-- The merged-counter increment for a PR series is the indicator of the
merge timestamp falling in the bucket. -/
theorem mergedInc_true_eq (d : ℤ) (it : TrendItem) :
    mergedInc true d it =
      if (match it.merged_at with
        | some m => inBucket d m
        | none => false) then 1 else 0 := by
  cases h : it.merged_at <;> simp [mergedInc, h]

/-- Summed merged increments: the count of in-bucket merge timestamps for a
PR series, 0 otherwise. -/
theorem sum_mergedInc (isPR : Bool) (d : ℤ) (items : List TrendItem) :
    (items.map (mergedInc isPR d)).sum =
      if isPR then
        (items.filter (fun it =>
          match it.merged_at with
          | some m => inBucket d m
          | none => false)).length
      else 0 := by
  cases isPR with
  | false =>
    simp only [if_neg Bool.false_ne_true]
    refine List.sum_eq_zero ?_
    intro x hx
    simp only [List.mem_map] at hx
    obtain ⟨it, _, hit⟩ := hx
    simp [mergedInc] at hit
    omega
  | true =>
    rw [List.map_congr_left (fun it _ => mergedInc_true_eq d it)]
    simp [sum_map_ite_count]

/-- Unrolling the counting loop of generateMonthlyTrends: folding the items
over the bucket list adds, to every bucket, the summed per-item increments
for that bucket's month. -/
theorem foldl_bumpBucket (isPR : Bool) (items : List TrendItem)
    (ms : List MonthBucket) :
    items.foldl (fun acc it => acc.map (bumpBucket isPR it)) ms =
      ms.map (fun b =>
        { date := b.date
          opened := b.opened + (items.map (openedInc b.date)).sum
          closed := b.closed + (items.map (closedInc b.date)).sum
          merged := b.merged + (items.map (mergedInc isPR b.date)).sum }) := by
  induction items generalizing ms with
  | nil =>
    rw [List.foldl_nil]
    exact (List.map_id ms).symm
  | cons it rest ih =>
    rw [List.foldl_cons, ih, List.map_map]
    apply List.map_congr_left
    intro b _
    simp [bumpBucket, Function.comp, add_assoc]

/-- C9: the monthly trend series has exactly 6 entries, oldest to newest,
covering the current month and the 5 preceding months; each bucket's opened
count is the number of items created in that month, its closed count the
number of items closed in that month, and its merged count — for PR series
only — the number of items merged in that month (one item can contribute to
several buckets); for non-PR series every merged field is 0. -/
theorem generateMonthlyTrends_spec (items : List TrendItem) (isPR : Bool)
    (today : ℤ) :
    (generateMonthlyTrends items isPR today).length = 6 ∧
    (generateMonthlyTrends items isPR today).map (fun e => e.month) =
      [today - 5, today - 4, today - 3, today - 2, today - 1, today] ∧
    (generateMonthlyTrends items isPR today).map (fun e => e.opened) =
      (List.range 6).map (fun j : ℕ =>
        (items.filter (fun it => inBucket (today - 5 + (j : ℤ)) it.created_at)).length) ∧
    (generateMonthlyTrends items isPR today).map (fun e => e.closed) =
      (List.range 6).map (fun j : ℕ =>
        (items.filter (fun it =>
          match it.closed_at with
          | some c => inBucket (today - 5 + (j : ℤ)) c
          | none => false)).length) ∧
    (generateMonthlyTrends items isPR today).map (fun e => e.merged) =
      (List.range 6).map (fun j : ℕ =>
        if isPR then
          (items.filter (fun it =>
            match it.merged_at with
            | some m => inBucket (today - 5 + (j : ℤ)) m
            | none => false)).length
        else 0) := by
  have hrange : List.range 6 = [0, 1, 2, 3, 4, 5] := rfl
  refine ⟨?_, ?_, ?_, ?_, ?_⟩
  · simp only [generateMonthlyTrends, foldl_bumpBucket, initMonths,
      List.length_map, List.length_range]
  · simp only [generateMonthlyTrends, foldl_bumpBucket, initMonths,
      List.map_map]
    rw [hrange]
    simp
    omega
  · simp only [generateMonthlyTrends, foldl_bumpBucket, initMonths,
      List.map_map]
    apply List.map_congr_left
    intro j _
    simp only [Function.comp_apply, zero_add]
    exact sum_map_ite_count _ items
  · simp only [generateMonthlyTrends, foldl_bumpBucket, initMonths,
      List.map_map]
    apply List.map_congr_left
    intro j _
    simp only [Function.comp_apply, zero_add]
    rw [List.map_congr_left (fun it _ => closedInc_eq (today - 5 + (j : ℤ)) it)]
    exact sum_map_ite_count _ items
  · simp only [generateMonthlyTrends, foldl_bumpBucket, initMonths,
      List.map_map]
    apply List.map_congr_left
    intro j _
    simp only [Function.comp_apply, zero_add]
    cases isPR with
    | false => simp [sum_mergedInc]
    | true => simp [sum_mergedInc]
